import Mathlib

/-!
Verification development for the tsvalid TSV validator.

The definitions below are a shallow embedding of `src/tsvalid/tsvalid.py`
(the class-based `TSValidChecker` scanner that the claims cite), together
with the one predicate from `src/tsvalid/checks.py` a claim refers to.
A file is modelled as the list of raw lines that Python's text iteration
with `newline=""` yields: every line except possibly the last carries its
own terminator (`"\n"`, `"\r\n"` or `"\r"`).  Summations, dictionaries and
exceptions are modelled explicitly; `sys.exit(1)` and uncaught Python
exceptions surface as `Except.error` values.
-/

namespace TSValid

/-! ### Python string primitives -/

/-- Python's `str` whitespace set, as used by `str.strip()` / `str.isspace()`:
TAB..CR, space, FS..US (0x1c-0x1f), NEL (0x85), NBSP (0xa0), OGHAM space,
the Zs block 0x2000-0x200a, and line/paragraph separators and narrow/medium
spaces and ideographic space. -/
def pyIsSpace (c : Char) : Bool :=
  (Char.ofNat 9 ≤ c && c ≤ Char.ofNat 13) || c = ' ' ||
  (Char.ofNat 28 ≤ c && c ≤ Char.ofNat 31) ||
  c.toNat = 0x85 || c.toNat = 0xa0 || c.toNat = 0x1680 ||
  (0x2000 ≤ c.toNat && c.toNat ≤ 0x200a) ||
  c.toNat = 0x2028 || c.toNat = 0x2029 || c.toNat = 0x202f ||
  c.toNat = 0x205f || c.toNat = 0x3000

/-- Python `s.strip()` with no argument: drop leading and trailing whitespace. -/
def pyStrip (s : String) : String :=
  String.mk (((s.data.dropWhile pyIsSpace).reverse.dropWhile pyIsSpace).reverse)

/-- Truthiness of a Python string: falsy exactly when empty. -/
def pyFalsyStr (s : String) : Bool :=
  s.data.isEmpty

/-- Python `s.startswith(pre)`. -/
def pyStartsWith (s pre : String) : Bool :=
  pre.data.isPrefixOf s.data

/-- Python `s.endswith(suf)`. -/
def pyEndsWith (s suf : String) : Bool :=
  suf.data.isSuffixOf s.data

/-- Python `s.split(sep)` for a one-character separator (the source only ever
splits on the column separator `"\t"`): `""` splits to `[""]`, and every
separator occurrence produces a boundary. -/
def pySplitCharAux (sep : Char) (acc : List Char) : List Char → List String
  | [] => [String.mk acc.reverse]
  | c :: rest =>
      if c = sep then String.mk acc.reverse :: pySplitCharAux sep [] rest
      else pySplitCharAux sep (c :: acc) rest

/-- Python `s.split("\t")`. -/
def pySplitTab (s : String) : List String :=
  pySplitCharAux '\t' [] s.data

/-- Python `s.count("\t")`: the number of tab characters in `s`. -/
def pyCountTabs (s : String) : Nat :=
  (s.data.filter (fun c => c = '\t')).length

/-- Size of Python `set(l)` for a list of strings: the number of distinct
elements. -/
def pySetSize (l : List String) : Nat :=
  (l.foldl (fun seen v => if v ∈ seen then seen else v :: seen) []).length

/-- Does the pattern occur as a contiguous run at some position? -/
def charsContain (pat : List Char) : List Char → Bool
  | [] => pat.isPrefixOf []
  | c :: rest => pat.isPrefixOf (c :: rest) || charsContain pat rest

/-- Python substring search (`re.search` where the pattern has no
metacharacters, as with the source's escaped line-ending patterns). -/
def pyContains (s pat : String) : Bool :=
  charsContain pat.data s.data

/-- Embeds `util.replace_newline_chars`: the source applies
`replace("\r\n", "")`, `replace("\n\r", "")`, `replace("\n", "")`,
`replace("\r", "")` in sequence; since the last two passes remove every
remaining LF and CR, the net effect of the chain is to delete every `"\n"`
and `"\r"` character while preserving the rest of the string. -/
def replace_newline_chars (s : String) : String :=
  String.mk (s.data.filter (fun c => c ≠ '\n' && c ≠ '\r'))

/-! ### Context keys (`tsvalid.py` lines 9-19) -/

def KEY_LAST_LINE : String := "last_line"
def KEY_CURRENT_LINE : String := "line_number"
def KEY_FIRST_ROW : String := "first_row"
def KEY_COLUMN : String := "column"
def KEY_TAB_COUNT : String := "tab_count"
def KEY_COLUMN_VALUE_EMPTY_COUNTS : String := "column_values_empty"
def KEY_FILENAME : String := "filename"
def KEY_ERROR_SUMMARY : String := "summary"

/-! ### Data model -/

/-- One `{count, error_code}` record of the summary dictionary. -/
structure SummaryEntry where
  count : Nat
  error_code : String

/-- The running summary: a Python dict keyed by check class name
(`type(check).__name__`), modelled as an insertion-ordered association
list, exactly as Python dicts preserve insertion order. -/
abbrev Summary := List (String × SummaryEntry)

/-- Insertion-ordered dictionary lookup. -/
def alistFind? {κ α : Type} [DecidableEq κ] : List (κ × α) → κ → Option α
  | [], _ => none
  | (k, v) :: rest, q => if k = q then some v else alistFind? rest q

/-- Insertion-ordered dictionary update: an existing key keeps its position,
a new key is appended at the end (Python dict insertion-order semantics). -/
def alistSet {κ α : Type} [DecidableEq κ] : List (κ × α) → κ → α → List (κ × α)
  | [], q, v => [(q, v)]
  | (k, w) :: rest, q, v =>
      if k = q then (q, v) :: rest else (k, w) :: alistSet rest q v

/-- The `count` recorded in a summary under a key, `0` when absent. -/
def summaryCount (s : Summary) (k : String) : Nat :=
  match alistFind? s k with
  | some e => e.count
  | none => 0

/-- The mutable validation context (`tsvalid.py` line 499): a dictionary
with the keys above.  `none` models an absent key; the `column` field is
initialised to the `"NA"` sentinel, modelled as `none` (that sentinel is
only ever read when formatting messages, which carry no observable
information for the properties below, so message strings are omitted). -/
structure Ctx where
  filename : String
  line_number : Option Nat := none
  column : Option Nat := none
  first_row : Option Nat := none
  tab_count : Option Nat := none
  last_line : Option Nat := none
  column_values_empty : Option (List (Nat × Nat)) := none
  summary : Option Summary := none

/-- The count stored for key `k` in a context's summary (with the summary
dictionary defaulting to empty while the `summary` key is absent). -/
def ctxCount (ctx : Ctx) (k : String) : Nat :=
  summaryCount (ctx.summary.getD []) k

/-- Python exceptions that can escape or be tested by `validate`.
In CPython's class hierarchy `UnicodeDecodeError` and `UnicodeEncodeError`
are sibling subclasses of `UnicodeError`: neither is an instance of the
other, which the `isUnicodeEncodeError` test below reflects. -/
inductive PyExc : Type
  | unicodeDecodeError : PyExc
  | unicodeEncodeError : PyExc
  | systemExit : Nat → PyExc
  | keyError : String → PyExc

/-- `isinstance(e, UnicodeEncodeError)`, the test performed by the
`except UnicodeEncodeError` clause at `tsvalid.py` line 568. -/
def isUnicodeEncodeError : PyExc → Bool
  | PyExc.unicodeEncodeError => true
  | _ => false

/-- Dispatch class of a check: `TSValidCellLevelCheck`,
`TSValidLineLevelCheck`, or the file-level `FileEncodingCheck` whose
`check` method just returns `False`. -/
inductive Granularity : Type
  | cellLevel : Granularity
  | lineLevel : Granularity
  | fileLevel : Granularity

/-- A check instance: its class name (the summary key), its error code, its
dispatch class and its `_fail_condition`. -/
structure Check where
  className : String
  error_code : String
  granularity : Granularity
  failCondition : String → Ctx → Bool

/-- Truthiness of the value returned by a `check` method: `None` (from the
line-level `check`, which has no `return`) and `False` are falsy. -/
def pyTruthy : Option Bool → Bool
  | some b => b
  | none => false

/-! ### Fail conditions of the individual checks (`tsvalid.py` 164-425) -/

/-- `LinebreakEncodingCheck.endings` (lines 192-196): the regex patterns
`\r\n`, `\n\r`, `\r`, each matched by plain substring search. -/
def ILLEGAL_LINE_ENDINGS : List String := ["\r\n", "\n\r", "\r"]

/-- `LinebreakEncodingCheck._fail_condition` (line 198): some illegal ending
occurs anywhere in the raw line. -/
def linebreakEncodingFail (line : String) (_ : Ctx) : Bool :=
  ILLEGAL_LINE_ENDINGS.any (fun x => pyContains line x)

/-- `LeadingWhitespaceCheck._fail_condition` (line 228): `cell.startswith(" ")`. -/
def leadingWhitespaceFail (cell : String) (_ : Ctx) : Bool :=
  pyStartsWith cell " "

/-- `TrailingWhitespaceCheck._fail_condition` (line 254): `cell.endswith(" ")`. -/
def trailingWhitespaceFail (cell : String) (_ : Ctx) : Bool :=
  pyEndsWith cell " "

/-- `NumberOfTabsCheck._fail_condition` (line 276): no tab count recorded
means no failure; otherwise the line's tab count must match the recorded one. -/
def numberOfTabsFail (line : String) (ctx : Ctx) : Bool :=
  match ctx.tab_count with
  | none => false
  | some n => pyCountTabs line ≠ n

/-- `EmptyLinesCheck._fail_condition` (line 298): `not line.strip()`. -/
def emptyLinesFail (line : String) (_ : Ctx) : Bool :=
  pyFalsyStr (pyStrip line)

/-- `MissingValueInHeaderCheck._fail_condition` (line 320): only on the
first row, a cell that strips to empty.  (The source reads the current-line
key unguardedly; at every reachable call the key is set, which the `Option`
equality reproduces.) -/
def missingValueInHeaderFail (cell : String) (ctx : Ctx) : Bool :=
  match ctx.first_row with
  | none => false
  | some fr => ctx.line_number == some fr && pyFalsyStr (pyStrip cell)

/-- `DuplicateValueInHeaderCheck._fail_condition` (line 346): the split
line has fewer distinct values than values. -/
def duplicateValueInHeaderFail (line : String) (_ : Ctx) : Bool :=
  let line_values := pySplitTab line
  line_values.length ≠ pySetSize line_values

/-- `RedundantWhitespaceInCell._fail_condition` (line 370):
`cell and not cell.strip()`. -/
def redundantWhitespaceFail (cell : String) (_ : Ctx) : Bool :=
  !pyFalsyStr cell && pyFalsyStr (pyStrip cell)

/-- `EmptyLastRowCheck._fail_condition` (line 411): only once the last-line
key is set and equals the current line, a raw line that does not end with
`"\n"`. -/
def emptyLastRowFail (line : String) (ctx : Ctx) : Bool :=
  match ctx.last_line with
  | none => false
  | some ll => ctx.line_number == some ll && !pyEndsWith line "\n"

/-- Placeholder for `EmptyColumnCheck._fail_condition`, which raises
`NotImplementedError` in the source and is never invoked: `validate`
reports this check directly through `report_failure`. -/
def emptyColumnNeverInvoked (_ : String) (_ : Ctx) : Bool :=
  false

/-- Placeholder for `FileEncodingCheck._fail_condition`; its `check`
override returns `False` without consulting any fail condition. -/
def fileEncodingNeverInvoked (_ : String) (_ : Ctx) : Bool :=
  false

/-! ### The check instances created by `TSValidChecker.validate` (482-495) -/

def trailing_whitespace_check : Check :=
  { className := "TrailingWhitespaceCheck", error_code := "E3",
    granularity := Granularity.cellLevel, failCondition := trailingWhitespaceFail }

def leading_whitespace_check : Check :=
  { className := "LeadingWhitespaceCheck", error_code := "E2",
    granularity := Granularity.cellLevel, failCondition := leadingWhitespaceFail }

def number_of_tabs_check : Check :=
  { className := "NumberOfTabsCheck", error_code := "E4",
    granularity := Granularity.lineLevel, failCondition := numberOfTabsFail }

def redundant_whitespace_in_cell : Check :=
  { className := "RedundantWhitespaceInCell", error_code := "E7",
    granularity := Granularity.cellLevel, failCondition := redundantWhitespaceFail }

/-- `line_level_checks` (line 483): despite the variable name the list mixes
cell-level and line-level checks, in this order. -/
def line_level_checks : List Check :=
  [trailing_whitespace_check, leading_whitespace_check,
   number_of_tabs_check, redundant_whitespace_in_cell]

def empty_line_check : Check :=
  { className := "EmptyLinesCheck", error_code := "E5",
    granularity := Granularity.lineLevel, failCondition := emptyLinesFail }

def duplicate_value_in_header_check : Check :=
  { className := "DuplicateValueInHeaderCheck", error_code := "E10",
    granularity := Granularity.lineLevel, failCondition := duplicateValueInHeaderFail }

def line_break_encoding_check : Check :=
  { className := "LinebreakEncodingCheck", error_code := "E1",
    granularity := Granularity.lineLevel, failCondition := linebreakEncodingFail }

def empty_last_line_check : Check :=
  { className := "EmptyLastRowCheck", error_code := "E9",
    granularity := Granularity.lineLevel, failCondition := emptyLastRowFail }

def empty_column_check : Check :=
  { className := "EmptyColumnCheck", error_code := "E8",
    granularity := Granularity.lineLevel, failCondition := emptyColumnNeverInvoked }

def missing_value_in_header_check : Check :=
  { className := "MissingValueInHeaderCheck", error_code := "E6",
    granularity := Granularity.cellLevel, failCondition := missingValueInHeaderFail }

def file_encoding_check : Check :=
  { className := "FileEncodingCheck", error_code := "E0",
    granularity := Granularity.fileLevel, failCondition := fileEncodingNeverInvoked }

/-! ### Report plumbing (`tsvalid.py` 73-103) -/

/-- `prepare_context_with_error_information` (line 73): record the current
check's identity in the context and update the summary statistics keyed by
the check's class name (create the `{count: 0, error_code}` entry on first
failure, then increment the count).  The message-formatting side effects
carry no information observed by any property below and are omitted. -/
def prepare_context_with_error_information (ctx : Ctx) (check : Check) : Ctx :=
  let s := ctx.summary.getD []
  let s :=
    match alistFind? s check.className with
    | some _ => s
    | none => alistSet s check.className { count := 0, error_code := check.error_code }
  let s :=
    match alistFind? s check.className with
    | some e => alistSet s check.className { count := e.count + 1, error_code := e.error_code }
    | none => s
  { ctx with summary := some s }

/-- `TSValidCheck.check_fail_condition_and_report` (line 46): run the fail
condition; on failure report (`report_failure` = prepare context + print)
and return `False`, otherwise return `True`. -/
def check_fail_condition_and_report (check : Check) (ctx : Ctx) (to_check : String) :
    Ctx × Bool :=
  if check.failCondition to_check ctx then
    (prepare_context_with_error_information ctx check, false)
  else (ctx, true)

/-- The cell loop of `TSValidCellLevelCheck.check` (line 130): enumerate the
tab-split cells, set the column key, and report each failing cell (the
boolean result of the inner call is discarded by the source). -/
def cellLoop (check : Check) : Ctx → List (Nat × String) → Ctx
  | ctx, [] => ctx
  | ctx, (idx, v) :: rest =>
      let ctx := { ctx with column := some idx }
      cellLoop check (check_fail_condition_and_report check ctx v).1 rest

/-- The `check` method, dispatched on the class of the check:
cell-level returns its initial `success = True` unchanged (line 128-133),
line-level has no `return` statement and yields `None` (line 152-158),
and `FileEncodingCheck.check` returns `False` (line 167-170). -/
def Check.check (check : Check) (ctx : Ctx) (to_check : String) : Ctx × Option Bool :=
  match check.granularity with
  | Granularity.cellLevel =>
      (cellLoop check ctx (pySplitTab to_check).enum, some true)
  | Granularity.lineLevel =>
      ((check_fail_condition_and_report check ctx to_check).1, none)
  | Granularity.fileLevel => (ctx, some false)

/-! ### The checker (`tsvalid.py` 467-626) -/

/-- `TSValidChecker` construction state: file path, exclusion tokens
(`exceptions`, defaulting to `[]`), and the fail-hard flag. -/
structure TSValidChecker where
  file_path : String
  exceptions : List String
  fail : Bool

/-- `TSValidChecker._run_check` (line 616) followed by `_consider_failing`
(line 622): skip the check when its error code is a member of the exclusion
list, otherwise run it; in fail-hard mode a falsy `success` value raises
`SystemExit(1)` (`sys.exit(1)`). -/
def run_check (self : TSValidChecker) (check : Check) (to_check : String) (ctx : Ctx) :
    Except PyExc Ctx :=
  if self.exceptions.contains check.error_code then Except.ok ctx
  else
    let res := check.check ctx to_check
    if self.fail && !pyTruthy res.2 then Except.error (PyExc.systemExit 1)
    else Except.ok res.1

/-- `TSValidChecker._run_checks` (line 598): run a list of checks in order. -/
def run_checks (self : TSValidChecker) : List Check → String → Ctx → Except PyExc Ctx
  | [], _, ctx => Except.ok ctx
  | c :: cs, to_test, ctx =>
      match run_check self c to_test ctx with
      | Except.error e => Except.error e
      | Except.ok ctx2 => run_checks self cs to_test ctx2

/-- `_count_empty_values_in_cells` (line 431): ensure the per-column dict
exists, initialise unseen columns to 0 and increment the columns whose cell
strips to something non-empty.  Note the caller passes the raw line. -/
def count_empty_values_in_cells (ctx : Ctx) (line : String) : Ctx :=
  let d :=
    (pySplitTab line).enum.foldl
      (fun d p =>
        let d := if (alistFind? d p.1).isSome then d else alistSet d p.1 0
        if !pyFalsyStr (pyStrip p.2) then alistSet d p.1 ((alistFind? d p.1).getD 0 + 1)
        else d)
      (ctx.column_values_empty.getD [])
  { ctx with column_values_empty := some d }

/-- The comment test of line 519: checks are skipped exactly when a truthy
comment prefix is configured and the bare line starts with it. -/
def commentSkip (comment : Option String) (bare : String) : Bool :=
  match comment with
  | none => false
  | some c => !pyFalsyStr c && pyStartsWith bare c

/-- The scan-loop state: the context plus the three loop-local variables of
`validate` (lines 501-503). -/
structure LoopState where
  ctx : Ctx
  line_counter : Nat
  last_line_without_new_line : String
  last_line_with_new_line : String

/-- One iteration of the scan loop of `TSValidChecker.validate`
(lines 510-567), in source order: bump the line counter and set the
current-line/column keys; if the line is not a comment, count empty cells
(on the raw line), record the tab count on first sight, run the header-only
checks on the first non-comment row, run the four `line_level_checks` on
the bare line, the line-break check on the raw line, and — from the second
line on — the empty-line check on the previous bare line with the
current-line key decremented; finally retain the line's bare and raw forms.
A raised `SystemExit` aborts the process, so the context mutations of an
erroring iteration are unobservable and the error branch discards them. -/
def loopBody (self : TSValidChecker) (comment : Option String) (st : LoopState)
    (line : String) : Except PyExc LoopState :=
  let line_counter := st.line_counter + 1
  let ctx0 := { st.ctx with line_number := some line_counter, column := some 0 }
  let line_without_new_line := replace_newline_chars line
  let body : Except PyExc Ctx :=
    if commentSkip comment line_without_new_line then Except.ok ctx0
    else
      let ctx1 := count_empty_values_in_cells ctx0 line
      let ctx2 :=
        if ctx1.tab_count.isNone then
          { ctx1 with tab_count := some (pyCountTabs line_without_new_line) }
        else ctx1
      let afterHeader : Except PyExc Ctx :=
        if ctx2.first_row.isNone then
          let ctx3 := { ctx2 with first_row := some line_counter }
          match run_check self missing_value_in_header_check line_without_new_line ctx3 with
          | Except.error e => Except.error e
          | Except.ok ctx4 =>
              run_check self duplicate_value_in_header_check line_without_new_line ctx4
        else Except.ok ctx2
      match afterHeader with
      | Except.error e => Except.error e
      | Except.ok ctx5 =>
        match run_checks self line_level_checks line_without_new_line ctx5 with
        | Except.error e => Except.error e
        | Except.ok ctx6 =>
          match run_check self line_break_encoding_check line ctx6 with
          | Except.error e => Except.error e
          | Except.ok ctx7 =>
            if line_counter > 1 then
              let ctx8 := { ctx7 with line_number := some (line_counter - 1) }
              run_check self empty_line_check st.last_line_without_new_line ctx8
            else Except.ok ctx7
  match body with
  | Except.error e => Except.error e
  | Except.ok ctxF =>
      Except.ok { ctx := ctxF, line_counter := line_counter,
                  last_line_without_new_line := line_without_new_line,
                  last_line_with_new_line := line }

/-- The `for line in f` loop (line 510): iterate `loopBody`; a raised
exception stops the iteration and is remembered alongside the state reached
(the context dict is mutated in place in Python, so the caught-exception
path continues from it). -/
def scanLoop (self : TSValidChecker) (comment : Option String) :
    LoopState → List String → LoopState × Option PyExc
  | st, [] => (st, none)
  | st, line :: rest =>
      match loopBody self comment st line with
      | Except.ok st2 => scanLoop self comment st2 rest
      | Except.error e => (st, some e)

/-- The empty-column loop of `validate` (lines 584-587): for every recorded
column whose non-empty count is zero, `report_failure` (which bypasses the
exclusion list) followed by `_consider_failing(success=False)`. -/
def empty_column_scan (self : TSValidChecker) : Ctx → List (Nat × Nat) → Except PyExc Ctx
  | ctx, [] => Except.ok ctx
  | ctx, (_, cnt) :: rest =>
      if cnt = 0 then
        let ctx2 := prepare_context_with_error_information ctx empty_column_check
        if self.fail then Except.error (PyExc.systemExit 1)
        else empty_column_scan self ctx2 rest
      else empty_column_scan self ctx rest

/-- The post-loop finalisation of `validate` (lines 573-596): reset the
column key, copy the current-line key into the last-line key (a `KeyError`
when the loop never ran), run the empty-last-row check on the retained raw
line, scan the per-column counts for empty columns (`KeyError` when the
dict was never created), and return the summary dictionary when the
`summary` option is set and the summary key exists, the empty dict
otherwise.  The final context is returned alongside as the observable state. -/
def finalize (self : TSValidChecker) (summaryOpt : Bool) (st : LoopState) :
    Except PyExc (Summary × Ctx) :=
  let ctx := { st.ctx with column := some 0 }
  match ctx.line_number with
  | none => Except.error (PyExc.keyError KEY_CURRENT_LINE)
  | some cur =>
    let ctx := { ctx with last_line := some cur }
    match run_check self empty_last_line_check st.last_line_with_new_line ctx with
    | Except.error e => Except.error e
    | Except.ok ctx =>
      match ctx.column_values_empty with
      | none => Except.error (PyExc.keyError KEY_COLUMN_VALUE_EMPTY_COUNTS)
      | some d =>
        match empty_column_scan self ctx d with
        | Except.error e => Except.error e
        | Except.ok ctx =>
          if summaryOpt && ctx.summary.isSome then Except.ok (ctx.summary.getD [], ctx)
          else Except.ok ([], ctx)

/-- `TSValidChecker.validate` (line 480) over a file given as its list of
raw lines.  `decodeError` models a `UnicodeDecodeError` raised by the file
iteration after the given lines were produced; the `try`/`except
UnicodeEncodeError` of lines 508-571 catches only encode errors, so any
other exception propagates, while on a (never occurring) caught encode
error the code records an E0 failure and falls through to finalisation. -/
def validateFull (self : TSValidChecker) (summaryOpt : Bool) (comment : Option String)
    (fileLines : List String) (decodeError : Bool) : Except PyExc (Summary × Ctx) :=
  let st0 : LoopState :=
    { ctx := { filename := self.file_path, column := none },
      line_counter := 0, last_line_without_new_line := "",
      last_line_with_new_line := "" }
  let scanned := scanLoop self comment st0 fileLines
  let raised : Option PyExc :=
    match scanned.2 with
    | some e => some e
    | none => if decodeError then some PyExc.unicodeDecodeError else none
  match raised with
  | some e =>
      if isUnicodeEncodeError e then
        finalize self summaryOpt
          { scanned.1 with
            ctx := prepare_context_with_error_information scanned.1.ctx file_encoding_check }
      else Except.error e
  | none => finalize self summaryOpt scanned.1

/-- The value `TSValidChecker.validate` returns to its caller: the summary
dictionary alone. -/
def validate (self : TSValidChecker) (summaryOpt : Bool) (comment : Option String)
    (fileLines : List String) (decodeError : Bool) : Except PyExc Summary :=
  (validateFull self summaryOpt comment fileLines decodeError).map (fun p => p.1)

/-- A checker built with the constructor defaults: no exclusions, fail-hard
off (`tsvalid.py` line 470). -/
def checkerNF : TSValidChecker :=
  { file_path := "input.tsv", exceptions := [], fail := false }

/-! ### The W1 predicate from `checks.py` (the function-based variant) -/

/-- Membership in Python's `string.printable`: digits, ASCII letters,
punctuation and the whitespace `" \t\n\r\x0b\x0c"` — i.e. 0x20-0x7e plus
TAB/LF/VT/FF/CR. -/
def string_printable (c : Char) : Bool :=
  (0x20 ≤ c.toNat && c.toNat ≤ 0x7e) || (Char.ofNat 9 ≤ c && c ≤ Char.ofNat 13)

/-- `checks.bad_encoding_in_char` (`checks.py` line 100), the W1 non-ASCII
cell predicate of the function-based variant: fails when some character of
the cell is outside `string.printable`.  `TSValidChecker.validate` never
invokes it. -/
def bad_encoding_in_char (cell : String) : Bool :=
  cell.data.any (fun c => !string_printable c)

/-! ### Derived pure forms used by the lemmas (not part of the source) -/

/-- The pure value of one scan-loop iteration under the default
configuration (no exclusions, fail-hard off, no comment prefix), in which
`run_check` cannot raise; `loopBody_nf` proves it equal to `loopBody`. -/
def stepNF (st : LoopState) (line : String) : LoopState :=
  let line_counter := st.line_counter + 1
  let ctx0 := { st.ctx with line_number := some line_counter, column := some 0 }
  let line_without_new_line := replace_newline_chars line
  let ctx1 := count_empty_values_in_cells ctx0 line
  let ctx2 :=
    if ctx1.tab_count.isNone then
      { ctx1 with tab_count := some (pyCountTabs line_without_new_line) }
    else ctx1
  let ctx5 :=
    if ctx2.first_row.isNone then
      let ctx3 := { ctx2 with first_row := some line_counter }
      let ctx4 := (missing_value_in_header_check.check ctx3 line_without_new_line).1
      (duplicate_value_in_header_check.check ctx4 line_without_new_line).1
    else ctx2
  let ctx6 :=
    line_level_checks.foldl (fun c chk => (chk.check c line_without_new_line).1) ctx5
  let ctx7 := (line_break_encoding_check.check ctx6 line).1
  let ctx8 :=
    if line_counter > 1 then
      let ctxd := { ctx7 with line_number := some (line_counter - 1) }
      (empty_line_check.check ctxd st.last_line_without_new_line).1
    else ctx7
  { ctx := ctx8, line_counter := line_counter,
    last_line_without_new_line := line_without_new_line,
    last_line_with_new_line := line }

/-- Whether a raw line is blank in the sense of the empty-line check: its
bare form (terminators removed) strips to the empty string. -/
def isBlankLine (l : String) : Bool :=
  pyFalsyStr (pyStrip (replace_newline_chars l))

/-- The number of empty-line (E5) reports the scan loop emits, as a
function of the entering line counter, the entering previous bare line and
the remaining raw lines: from the second line of the file on, one report
per blank previous bare line. -/
def e5Events : Nat → String → List String → Nat
  | _, _, [] => 0
  | c, prev, l :: rest =>
      (if c + 1 > 1 then (if pyFalsyStr (pyStrip prev) then 1 else 0) else 0) +
        e5Events (c + 1) (replace_newline_chars l) rest

/-- The number of cells of a bare line that start with a space: the E2
reports one line contributes. -/
def e2CellCount (l : String) : Nat :=
  (pySplitTab (replace_newline_chars l)).countP (fun cell => pyStartsWith cell " ")

/-- The number of cells of a bare line that end with a space: the E3
reports one line contributes. -/
def e3CellCount (l : String) : Nat :=
  (pySplitTab (replace_newline_chars l)).countP (fun cell => pyEndsWith cell " ")

end TSValid

namespace TSValid

/-! ### Dictionary lemmas -/

theorem alistFind?_set_self {κ α : Type} [DecidableEq κ] (d : List (κ × α)) (k : κ) (v : α) :
    alistFind? (alistSet d k v) k = some v := by
  induction d with
  | nil => simp [alistSet, alistFind?]
  | cons p rest ih =>
      obtain ⟨k1, v1⟩ := p
      by_cases h : k1 = k
      · simp [alistSet, alistFind?, h]
      · simp [alistSet, alistFind?, h, ih]

theorem alistFind?_set_ne {κ α : Type} [DecidableEq κ] (d : List (κ × α)) (k : κ) (v : α)
    (q : κ) (h : q ≠ k) : alistFind? (alistSet d k v) q = alistFind? d q := by
  have h2 : ¬k = q := fun hh => h hh.symm
  induction d with
  | nil => simp [alistSet, alistFind?, h2]
  | cons p rest ih =>
      obtain ⟨k1, v1⟩ := p
      by_cases h1 : k1 = k
      · subst h1
        simp [alistSet, alistFind?, h2]
      · simp [alistSet, alistFind?, h1, ih]

/-! ### Counting a single report -/

theorem ctxCount_prepare (ctx : Ctx) (c : Check) (k : String) :
    ctxCount (prepare_context_with_error_information ctx c) k =
      ctxCount ctx k + (if c.className = k then 1 else 0) := by
  unfold prepare_context_with_error_information ctxCount summaryCount
  by_cases hk : c.className = k
  · subst hk
    cases hf : alistFind? (ctx.summary.getD []) c.className with
    | some e => simp [hf, alistFind?_set_self]
    | none => simp [hf, alistFind?_set_self]
  · have hk2 : k ≠ c.className := fun hh => hk hh.symm
    cases hf : alistFind? (ctx.summary.getD []) c.className with
    | some e => simp [hf, alistFind?_set_ne _ _ _ _ hk2, hk]
    | none => simp [hf, alistFind?_set_self, alistFind?_set_ne _ _ _ _ hk2, hk]

/-! ### Frame lemmas: which context fields each operation can touch -/

@[simp] theorem prepare_line_number (ctx : Ctx) (c : Check) :
    (prepare_context_with_error_information ctx c).line_number = ctx.line_number := rfl

@[simp] theorem prepare_column (ctx : Ctx) (c : Check) :
    (prepare_context_with_error_information ctx c).column = ctx.column := rfl

@[simp] theorem prepare_first_row (ctx : Ctx) (c : Check) :
    (prepare_context_with_error_information ctx c).first_row = ctx.first_row := rfl

@[simp] theorem prepare_tab_count (ctx : Ctx) (c : Check) :
    (prepare_context_with_error_information ctx c).tab_count = ctx.tab_count := rfl

@[simp] theorem prepare_last_line (ctx : Ctx) (c : Check) :
    (prepare_context_with_error_information ctx c).last_line = ctx.last_line := rfl

@[simp] theorem prepare_cve (ctx : Ctx) (c : Check) :
    (prepare_context_with_error_information ctx c).column_values_empty =
      ctx.column_values_empty := rfl

@[simp] theorem cfcr_line_number (c : Check) (ctx : Ctx) (t : String) :
    (check_fail_condition_and_report c ctx t).1.line_number = ctx.line_number := by
  unfold check_fail_condition_and_report
  split <;> simp

@[simp] theorem cfcr_column (c : Check) (ctx : Ctx) (t : String) :
    (check_fail_condition_and_report c ctx t).1.column = ctx.column := by
  unfold check_fail_condition_and_report
  split <;> simp

@[simp] theorem cfcr_first_row (c : Check) (ctx : Ctx) (t : String) :
    (check_fail_condition_and_report c ctx t).1.first_row = ctx.first_row := by
  unfold check_fail_condition_and_report
  split <;> simp

@[simp] theorem cfcr_tab_count (c : Check) (ctx : Ctx) (t : String) :
    (check_fail_condition_and_report c ctx t).1.tab_count = ctx.tab_count := by
  unfold check_fail_condition_and_report
  split <;> simp

@[simp] theorem cfcr_last_line (c : Check) (ctx : Ctx) (t : String) :
    (check_fail_condition_and_report c ctx t).1.last_line = ctx.last_line := by
  unfold check_fail_condition_and_report
  split <;> simp

@[simp] theorem cfcr_cve (c : Check) (ctx : Ctx) (t : String) :
    (check_fail_condition_and_report c ctx t).1.column_values_empty =
      ctx.column_values_empty := by
  unfold check_fail_condition_and_report
  split <;> simp

theorem cellLoop_line_number (c : Check) (l : List (Nat × String)) :
    ∀ ctx, (cellLoop c ctx l).line_number = ctx.line_number := by
  induction l with
  | nil => intro ctx; rfl
  | cons p rest ih =>
      intro ctx
      obtain ⟨idx, v⟩ := p
      simp [cellLoop, ih]

theorem cellLoop_first_row (c : Check) (l : List (Nat × String)) :
    ∀ ctx, (cellLoop c ctx l).first_row = ctx.first_row := by
  induction l with
  | nil => intro ctx; rfl
  | cons p rest ih =>
      intro ctx
      obtain ⟨idx, v⟩ := p
      simp [cellLoop, ih]

theorem cellLoop_tab_count (c : Check) (l : List (Nat × String)) :
    ∀ ctx, (cellLoop c ctx l).tab_count = ctx.tab_count := by
  induction l with
  | nil => intro ctx; rfl
  | cons p rest ih =>
      intro ctx
      obtain ⟨idx, v⟩ := p
      simp [cellLoop, ih]

theorem cellLoop_last_line (c : Check) (l : List (Nat × String)) :
    ∀ ctx, (cellLoop c ctx l).last_line = ctx.last_line := by
  induction l with
  | nil => intro ctx; rfl
  | cons p rest ih =>
      intro ctx
      obtain ⟨idx, v⟩ := p
      simp [cellLoop, ih]

theorem cellLoop_cve (c : Check) (l : List (Nat × String)) :
    ∀ ctx, (cellLoop c ctx l).column_values_empty = ctx.column_values_empty := by
  induction l with
  | nil => intro ctx; rfl
  | cons p rest ih =>
      intro ctx
      obtain ⟨idx, v⟩ := p
      simp [cellLoop, ih]

@[simp] theorem check_fst_line_number (c : Check) (ctx : Ctx) (t : String) :
    (Check.check c ctx t).1.line_number = ctx.line_number := by
  unfold Check.check
  split <;> simp [cellLoop_line_number]

@[simp] theorem check_fst_first_row (c : Check) (ctx : Ctx) (t : String) :
    (Check.check c ctx t).1.first_row = ctx.first_row := by
  unfold Check.check
  split <;> simp [cellLoop_first_row]

@[simp] theorem check_fst_tab_count (c : Check) (ctx : Ctx) (t : String) :
    (Check.check c ctx t).1.tab_count = ctx.tab_count := by
  unfold Check.check
  split <;> simp [cellLoop_tab_count]

@[simp] theorem check_fst_last_line (c : Check) (ctx : Ctx) (t : String) :
    (Check.check c ctx t).1.last_line = ctx.last_line := by
  unfold Check.check
  split <;> simp [cellLoop_last_line]

@[simp] theorem check_fst_cve (c : Check) (ctx : Ctx) (t : String) :
    (Check.check c ctx t).1.column_values_empty = ctx.column_values_empty := by
  unfold Check.check
  split <;> simp [cellLoop_cve]

@[simp] theorem count_empty_line_number (ctx : Ctx) (line : String) :
    (count_empty_values_in_cells ctx line).line_number = ctx.line_number := rfl

@[simp] theorem count_empty_first_row (ctx : Ctx) (line : String) :
    (count_empty_values_in_cells ctx line).first_row = ctx.first_row := rfl

@[simp] theorem count_empty_tab_count (ctx : Ctx) (line : String) :
    (count_empty_values_in_cells ctx line).tab_count = ctx.tab_count := rfl

@[simp] theorem count_empty_last_line (ctx : Ctx) (line : String) :
    (count_empty_values_in_cells ctx line).last_line = ctx.last_line := rfl

@[simp] theorem count_empty_cve_isSome (ctx : Ctx) (line : String) :
    (count_empty_values_in_cells ctx line).column_values_empty.isSome = true := rfl

@[simp] theorem ctxCount_count_empty (ctx : Ctx) (line : String) (k : String) :
    ctxCount (count_empty_values_in_cells ctx line) k = ctxCount ctx k := rfl

end TSValid

namespace TSValid

/-! ### Counting through the check dispatch -/

@[simp] theorem ctxCount_update_ln_col (ctx : Ctx) (a b : Option Nat) (k : String) :
    ctxCount { ctx with line_number := a, column := b } k = ctxCount ctx k := rfl

@[simp] theorem ctxCount_update_ln (ctx : Ctx) (a : Option Nat) (k : String) :
    ctxCount { ctx with line_number := a } k = ctxCount ctx k := rfl

@[simp] theorem ctxCount_update_col (ctx : Ctx) (a : Option Nat) (k : String) :
    ctxCount { ctx with column := a } k = ctxCount ctx k := rfl

@[simp] theorem ctxCount_update_tab (ctx : Ctx) (a : Option Nat) (k : String) :
    ctxCount { ctx with tab_count := a } k = ctxCount ctx k := rfl

@[simp] theorem ctxCount_update_fr (ctx : Ctx) (a : Option Nat) (k : String) :
    ctxCount { ctx with first_row := a } k = ctxCount ctx k := rfl

@[simp] theorem ctxCount_update_ll (ctx : Ctx) (a : Option Nat) (k : String) :
    ctxCount { ctx with last_line := a } k = ctxCount ctx k := rfl

theorem ctxCount_cfcr (c : Check) (ctx : Ctx) (t : String) (k : String) :
    ctxCount ((check_fail_condition_and_report c ctx t).1) k =
      ctxCount ctx k +
        (if c.failCondition t ctx then (if c.className = k then 1 else 0) else 0) := by
  unfold check_fail_condition_and_report
  split
  · simp [ctxCount_prepare]
  · simp

theorem ctxCount_cellLoop_ne (c : Check) (k : String) (h : c.className ≠ k)
    (l : List (Nat × String)) : ∀ ctx, ctxCount (cellLoop c ctx l) k = ctxCount ctx k := by
  induction l with
  | nil => intro ctx; rfl
  | cons p rest ih =>
      intro ctx
      obtain ⟨idx, v⟩ := p
      simp [cellLoop, ih, ctxCount_cfcr, h]

theorem ctxCount_cellLoop_self (c : Check) (g : String → Bool)
    (hg : ∀ t ctx2, c.failCondition t ctx2 = g t) (k : String) (hk : c.className = k)
    (l : List (Nat × String)) :
    ∀ ctx, ctxCount (cellLoop c ctx l) k = ctxCount ctx k + l.countP (fun p => g p.2) := by
  induction l with
  | nil => intro ctx; simp [cellLoop]
  | cons p rest ih =>
      intro ctx
      obtain ⟨idx, v⟩ := p
      simp only [cellLoop, ih, ctxCount_cfcr, hg, hk, List.countP_cons]
      split <;> simp <;> omega

theorem ctxCount_check_ne (c : Check) (k : String) (h : c.className ≠ k)
    (ctx : Ctx) (t : String) : ctxCount ((Check.check c ctx t).1) k = ctxCount ctx k := by
  unfold Check.check
  split
  · simp [ctxCount_cellLoop_ne c k h]
  · simp [ctxCount_cfcr, h]
  · rfl

theorem countP_enumFrom (g : String → Bool) (l : List String) :
    ∀ n : Nat, (List.enumFrom n l).countP (fun p => g p.2) = l.countP g := by
  induction l with
  | nil => intro n; rfl
  | cons a rest ih =>
      intro n
      simp [List.enumFrom, List.countP_cons, ih]

theorem ctxCount_check_cell_self (c : Check) (g : String → Bool)
    (hg : ∀ t ctx2, c.failCondition t ctx2 = g t) (k : String) (hk : c.className = k)
    (hc : c.granularity = Granularity.cellLevel) (ctx : Ctx) (t : String) :
    ctxCount ((Check.check c ctx t).1) k = ctxCount ctx k + (pySplitTab t).countP g := by
  unfold Check.check
  rw [hc]
  simp only [ctxCount_cellLoop_self c g hg k hk, List.enum, countP_enumFrom]

theorem ctxCount_check_leading (ctx : Ctx) (t : String) :
    ctxCount ((leading_whitespace_check.check ctx t).1) "LeadingWhitespaceCheck" =
      ctxCount ctx "LeadingWhitespaceCheck" +
        (pySplitTab t).countP (fun cell => pyStartsWith cell " ") :=
  ctxCount_check_cell_self leading_whitespace_check _ (fun _ _ => rfl) _ rfl rfl ctx t

theorem ctxCount_check_trailing (ctx : Ctx) (t : String) :
    ctxCount ((trailing_whitespace_check.check ctx t).1) "TrailingWhitespaceCheck" =
      ctxCount ctx "TrailingWhitespaceCheck" +
        (pySplitTab t).countP (fun cell => pyEndsWith cell " ") :=
  ctxCount_check_cell_self trailing_whitespace_check _ (fun _ _ => rfl) _ rfl rfl ctx t

theorem ctxCount_check_empty_line (ctx : Ctx) (t : String) :
    ctxCount ((empty_line_check.check ctx t).1) "EmptyLinesCheck" =
      ctxCount ctx "EmptyLinesCheck" + (if pyFalsyStr (pyStrip t) then 1 else 0) := by
  unfold Check.check
  simp only [empty_line_check, ctxCount_cfcr]
  rfl

theorem ctxCount_check_empty_last_row (ctx : Ctx) (t : String) :
    ctxCount ((empty_last_line_check.check ctx t).1) "EmptyLastRowCheck" =
      ctxCount ctx "EmptyLastRowCheck" + (if emptyLastRowFail t ctx then 1 else 0) := by
  unfold Check.check
  simp only [empty_last_line_check, ctxCount_cfcr]
  rfl

/-! ### `run_check` in the default configuration -/

theorem run_check_nf (self : TSValidChecker) (h : self.fail = false) (c : Check)
    (t : String) (ctx : Ctx) :
    run_check self c t ctx =
      Except.ok (if self.exceptions.contains c.error_code then ctx
                 else (c.check ctx t).1) := by
  unfold run_check
  split
  · rename_i hc
    simp [hc]
  · rename_i hc
    simp [h, hc]

theorem run_check_checkerNF (c : Check) (t : String) (ctx : Ctx) :
    run_check checkerNF c t ctx = Except.ok ((c.check ctx t).1) := by
  rw [run_check_nf checkerNF rfl]
  simp [checkerNF]

theorem run_checks_checkerNF (cs : List Check) (t : String) :
    ∀ ctx, run_checks checkerNF cs t ctx =
      Except.ok (cs.foldl (fun c chk => (chk.check c t).1) ctx) := by
  induction cs with
  | nil => intro ctx; rfl
  | cons c rest ih =>
      intro ctx
      simp [run_checks, run_check_checkerNF, ih]

theorem loopBody_nf (st : LoopState) (line : String) :
    loopBody checkerNF none st line = Except.ok (stepNF st line) := by
  unfold loopBody stepNF
  simp only [commentSkip, Bool.false_eq_true, if_false,
    run_check_checkerNF, run_checks_checkerNF]
  split_ifs <;> rfl

end TSValid

namespace TSValid

/-! ### Properties of one scan step -/

theorem foldl_checks_line_number (t : String) (cs : List Check) :
    ∀ ctx : Ctx,
      (cs.foldl (fun (c : Ctx) (chk : Check) => (chk.check c t).1) ctx).line_number =
        ctx.line_number := by
  induction cs with
  | nil => intro ctx; rfl
  | cons c rest ih =>
      intro ctx
      simp [ih]

theorem foldl_checks_cve (t : String) (cs : List Check) :
    ∀ ctx : Ctx,
      (cs.foldl (fun (c : Ctx) (chk : Check) => (chk.check c t).1) ctx).column_values_empty =
        ctx.column_values_empty := by
  induction cs with
  | nil => intro ctx; rfl
  | cons c rest ih =>
      intro ctx
      simp [ih]

theorem stepNF_line_counter (st : LoopState) (line : String) :
    (stepNF st line).line_counter = st.line_counter + 1 := rfl

theorem stepNF_last_raw (st : LoopState) (line : String) :
    (stepNF st line).last_line_with_new_line = line := rfl

theorem stepNF_last_bare (st : LoopState) (line : String) :
    (stepNF st line).last_line_without_new_line = replace_newline_chars line := rfl

theorem stepNF_line_number_isSome (st : LoopState) (line : String) :
    ((stepNF st line).ctx.line_number).isSome = true := by
  simp only [stepNF]
  split_ifs <;> simp [foldl_checks_line_number]

theorem stepNF_cve_isSome (st : LoopState) (line : String) :
    ((stepNF st line).ctx.column_values_empty).isSome = true := by
  simp only [stepNF]
  split_ifs <;> simp [foldl_checks_cve]

end TSValid

namespace TSValid

@[simp] theorem ctxCount_mk (fn : String) (ln col fr tc ll : Option Nat)
    (cve : Option (List (Nat × Nat))) (s : Option Summary) (k : String) :
    ctxCount (Ctx.mk fn ln col fr tc ll cve s) k = summaryCount (s.getD []) k := rfl

@[simp] theorem summaryCount_of_ctx (ctx : Ctx) (k : String) :
    summaryCount (ctx.summary.getD []) k = ctxCount ctx k := rfl

@[simp] theorem count_empty_summary (ctx : Ctx) (line : String) :
    (count_empty_values_in_cells ctx line).summary = ctx.summary := rfl

theorem stepNF_count_E5 (st : LoopState) (line : String) :
    ctxCount (stepNF st line).ctx "EmptyLinesCheck" =
      ctxCount st.ctx "EmptyLinesCheck" +
        (if st.line_counter + 1 > 1 then
          (if pyFalsyStr (pyStrip st.last_line_without_new_line) then 1 else 0) else 0) := by
  simp only [stepNF, line_level_checks, List.foldl_cons, List.foldl_nil]
  split_ifs <;>
    simp [ctxCount_check_ne missing_value_in_header_check "EmptyLinesCheck" (by decide),
          ctxCount_check_ne duplicate_value_in_header_check "EmptyLinesCheck" (by decide),
          ctxCount_check_ne trailing_whitespace_check "EmptyLinesCheck" (by decide),
          ctxCount_check_ne leading_whitespace_check "EmptyLinesCheck" (by decide),
          ctxCount_check_ne number_of_tabs_check "EmptyLinesCheck" (by decide),
          ctxCount_check_ne redundant_whitespace_in_cell "EmptyLinesCheck" (by decide),
          ctxCount_check_ne line_break_encoding_check "EmptyLinesCheck" (by decide),
          ctxCount_check_empty_line] <;>
    simp_all

end TSValid

namespace TSValid

theorem stepNF_count_E2 (st : LoopState) (line : String) :
    ctxCount (stepNF st line).ctx "LeadingWhitespaceCheck" =
      ctxCount st.ctx "LeadingWhitespaceCheck" + e2CellCount line := by
  simp only [stepNF, line_level_checks, List.foldl_cons, List.foldl_nil]
  split_ifs <;>
    simp [ctxCount_check_ne missing_value_in_header_check "LeadingWhitespaceCheck" (by decide),
          ctxCount_check_ne duplicate_value_in_header_check "LeadingWhitespaceCheck" (by decide),
          ctxCount_check_ne trailing_whitespace_check "LeadingWhitespaceCheck" (by decide),
          ctxCount_check_ne number_of_tabs_check "LeadingWhitespaceCheck" (by decide),
          ctxCount_check_ne redundant_whitespace_in_cell "LeadingWhitespaceCheck" (by decide),
          ctxCount_check_ne line_break_encoding_check "LeadingWhitespaceCheck" (by decide),
          ctxCount_check_ne empty_line_check "LeadingWhitespaceCheck" (by decide),
          ctxCount_check_leading, e2CellCount]

theorem stepNF_count_E3 (st : LoopState) (line : String) :
    ctxCount (stepNF st line).ctx "TrailingWhitespaceCheck" =
      ctxCount st.ctx "TrailingWhitespaceCheck" + e3CellCount line := by
  simp only [stepNF, line_level_checks, List.foldl_cons, List.foldl_nil]
  split_ifs <;>
    simp [ctxCount_check_ne missing_value_in_header_check "TrailingWhitespaceCheck" (by decide),
          ctxCount_check_ne duplicate_value_in_header_check "TrailingWhitespaceCheck" (by decide),
          ctxCount_check_ne leading_whitespace_check "TrailingWhitespaceCheck" (by decide),
          ctxCount_check_ne number_of_tabs_check "TrailingWhitespaceCheck" (by decide),
          ctxCount_check_ne redundant_whitespace_in_cell "TrailingWhitespaceCheck" (by decide),
          ctxCount_check_ne line_break_encoding_check "TrailingWhitespaceCheck" (by decide),
          ctxCount_check_ne empty_line_check "TrailingWhitespaceCheck" (by decide),
          ctxCount_check_trailing, e3CellCount]

theorem stepNF_count_E9 (st : LoopState) (line : String) :
    ctxCount (stepNF st line).ctx "EmptyLastRowCheck" =
      ctxCount st.ctx "EmptyLastRowCheck" := by
  simp only [stepNF, line_level_checks, List.foldl_cons, List.foldl_nil]
  split_ifs <;>
    simp [ctxCount_check_ne missing_value_in_header_check "EmptyLastRowCheck" (by decide),
          ctxCount_check_ne duplicate_value_in_header_check "EmptyLastRowCheck" (by decide),
          ctxCount_check_ne trailing_whitespace_check "EmptyLastRowCheck" (by decide),
          ctxCount_check_ne leading_whitespace_check "EmptyLastRowCheck" (by decide),
          ctxCount_check_ne number_of_tabs_check "EmptyLastRowCheck" (by decide),
          ctxCount_check_ne redundant_whitespace_in_cell "EmptyLastRowCheck" (by decide),
          ctxCount_check_ne line_break_encoding_check "EmptyLastRowCheck" (by decide),
          ctxCount_check_ne empty_line_check "EmptyLastRowCheck" (by decide)]

end TSValid

namespace TSValid

/-! ### The scan loop in the default configuration -/

theorem scanLoop_nf (lines : List String) :
    ∀ st, scanLoop checkerNF none st lines = (lines.foldl stepNF st, none) := by
  induction lines with
  | nil => intro st; rfl
  | cons l rest ih =>
      intro st
      simp [scanLoop, loopBody_nf, ih]

theorem foldl_stepNF_line_counter (lines : List String) :
    ∀ st, (lines.foldl stepNF st).line_counter = st.line_counter + lines.length := by
  induction lines with
  | nil => intro st; simp
  | cons l rest ih =>
      intro st
      simp [ih, stepNF_line_counter]
      omega

theorem foldl_stepNF_last_raw (lines : List String) :
    ∀ st, (lines.foldl stepNF st).last_line_with_new_line =
      lines.getLastD st.last_line_with_new_line := by
  induction lines with
  | nil => intro st; rfl
  | cons l rest ih =>
      intro st
      rw [List.foldl_cons, ih, stepNF_last_raw]
      cases rest with
      | nil => rfl
      | cons r rs => rfl

theorem foldl_stepNF_line_number_isSome (lines : List String) (h : lines ≠ []) :
    ∀ st, ((lines.foldl stepNF st).ctx.line_number).isSome = true := by
  induction lines with
  | nil => exact absurd rfl h
  | cons l rest ih =>
      intro st
      by_cases hr : rest = []
      · subst hr
        simpa using stepNF_line_number_isSome st l
      · simpa using ih hr (stepNF st l)

theorem foldl_stepNF_cve_isSome (lines : List String) (h : lines ≠ []) :
    ∀ st, ((lines.foldl stepNF st).ctx.column_values_empty).isSome = true := by
  induction lines with
  | nil => exact absurd rfl h
  | cons l rest ih =>
      intro st
      by_cases hr : rest = []
      · subst hr
        simpa using stepNF_cve_isSome st l
      · simpa using ih hr (stepNF st l)

theorem foldl_stepNF_count_E5 (lines : List String) :
    ∀ st, ctxCount (lines.foldl stepNF st).ctx "EmptyLinesCheck" =
      ctxCount st.ctx "EmptyLinesCheck" +
        e5Events st.line_counter st.last_line_without_new_line lines := by
  induction lines with
  | nil => intro st; simp [e5Events]
  | cons l rest ih =>
      intro st
      simp only [List.foldl_cons, ih, stepNF_count_E5, e5Events,
        stepNF_line_counter, stepNF_last_bare]
      omega

theorem foldl_stepNF_count_E2 (lines : List String) :
    ∀ st, ctxCount (lines.foldl stepNF st).ctx "LeadingWhitespaceCheck" =
      ctxCount st.ctx "LeadingWhitespaceCheck" + (lines.map e2CellCount).sum := by
  induction lines with
  | nil => intro st; simp
  | cons l rest ih =>
      intro st
      simp only [List.foldl_cons, ih, stepNF_count_E2, List.map_cons, List.sum_cons]
      omega

theorem foldl_stepNF_count_E3 (lines : List String) :
    ∀ st, ctxCount (lines.foldl stepNF st).ctx "TrailingWhitespaceCheck" =
      ctxCount st.ctx "TrailingWhitespaceCheck" + (lines.map e3CellCount).sum := by
  induction lines with
  | nil => intro st; simp
  | cons l rest ih =>
      intro st
      simp only [List.foldl_cons, ih, stepNF_count_E3, List.map_cons, List.sum_cons]
      omega

theorem foldl_stepNF_count_E9 (lines : List String) :
    ∀ st, ctxCount (lines.foldl stepNF st).ctx "EmptyLastRowCheck" =
      ctxCount st.ctx "EmptyLastRowCheck" := by
  induction lines with
  | nil => intro st; rfl
  | cons l rest ih =>
      intro st
      simp [ih, stepNF_count_E9]

/-- Closed form of the E5 event count when entering with counter at least 1:
one event per blank line strictly before the last remaining line. -/
theorem e5Events_closed (lines : List String) :
    ∀ (prev : String) (c : Nat), 1 ≤ c →
      e5Events c prev lines =
        (if lines = [] then 0 else (if pyFalsyStr (pyStrip prev) then 1 else 0) +
          lines.dropLast.countP isBlankLine) := by
  induction lines with
  | nil => intro prev c _; simp [e5Events]
  | cons l rest ih =>
      intro prev c hc
      have hcc : c + 1 > 1 := by omega
      simp only [e5Events, if_pos hcc]
      rw [ih (replace_newline_chars l) (c + 1) (by omega)]
      cases rest with
      | nil => simp
      | cons r rs =>
          simp only [List.dropLast_cons₂, List.countP_cons]
          simp [isBlankLine]
          omega

/-- The E5 event count of a whole scan: one event per blank line other than
the very last line of the file. -/
theorem e5Events_from_start (lines : List String) :
    e5Events 0 "" lines = lines.dropLast.countP isBlankLine := by
  cases lines with
  | nil => rfl
  | cons l rest =>
      simp only [e5Events]
      rw [e5Events_closed rest (replace_newline_chars l) 1 (by omega)]
      cases rest with
      | nil => simp
      | cons r rs => simp [isBlankLine, List.dropLast_cons₂, List.countP_cons]; omega

end TSValid

namespace TSValid

/-! ### Finalisation lemmas -/

@[simp] theorem checkerNF_fail : checkerNF.fail = false := rfl

@[simp] theorem checkerNF_exceptions : checkerNF.exceptions = [] := rfl

theorem empty_column_scan_nf (d : List (Nat × Nat)) :
    ∀ ctx, ∃ ctxf, empty_column_scan checkerNF ctx d = Except.ok ctxf ∧
      ∀ k, k ≠ "EmptyColumnCheck" → ctxCount ctxf k = ctxCount ctx k := by
  induction d with
  | nil => intro ctx; exact ⟨ctx, rfl, fun k _ => rfl⟩
  | cons p rest ih =>
      intro ctx
      obtain ⟨col, cnt⟩ := p
      by_cases h : cnt = 0
      · obtain ⟨ctxf, he, hcount⟩ :=
          ih (prepare_context_with_error_information ctx empty_column_check)
        refine ⟨ctxf, ?_, ?_⟩
        · simp [empty_column_scan, h, he]
        · intro k hk
          rw [hcount k hk, ctxCount_prepare]
          have hne : ¬("EmptyColumnCheck" = k) := fun hh => hk hh.symm
          simp [empty_column_check, hne]
      · obtain ⟨ctxf, he, hcount⟩ := ih ctx
        refine ⟨ctxf, ?_, hcount⟩
        simp [empty_column_scan, h, he]

theorem finalize_nf_count (st : LoopState) (cur : Nat) (d : List (Nat × Nat)) (k : String)
    (h1 : st.ctx.line_number = some cur) (h2 : st.ctx.column_values_empty = some d)
    (hk : k ≠ "EmptyColumnCheck") :
    (finalize checkerNF true st).map (fun p => summaryCount p.1 k) =
      Except.ok (ctxCount st.ctx k +
        (if k = "EmptyLastRowCheck" ∧ pyEndsWith st.last_line_with_new_line "\n" = false
         then 1 else 0)) := by
  unfold finalize
  simp only [run_check_checkerNF, h1]
  simp only [check_fst_cve, h2]
  set L : Ctx :=
    { filename := st.ctx.filename, line_number := some cur, column := some 0,
      first_row := st.ctx.first_row, tab_count := st.ctx.tab_count, last_line := some cur,
      column_values_empty := some d, summary := st.ctx.summary }
  obtain ⟨ctxf, he, hcount⟩ :=
    empty_column_scan_nf d ((empty_last_line_check.check L st.last_line_with_new_line).1)
  rw [he]
  have hfail : emptyLastRowFail st.last_line_with_new_line L =
      !pyEndsWith st.last_line_with_new_line "\n" := by
    simp [emptyLastRowFail, L]
  have hctx2 : ctxCount ((empty_last_line_check.check L st.last_line_with_new_line).1) k =
      ctxCount st.ctx k +
        (if k = "EmptyLastRowCheck" ∧ pyEndsWith st.last_line_with_new_line "\n" = false
         then 1 else 0) := by
    by_cases hke : k = "EmptyLastRowCheck"
    · subst hke
      rw [ctxCount_check_empty_last_row, hfail]
      have hbase : ctxCount L "EmptyLastRowCheck" = ctxCount st.ctx "EmptyLastRowCheck" := by
        simp [L]
      rw [hbase]
      cases hpe : pyEndsWith st.last_line_with_new_line "\n" <;> simp
    · rw [ctxCount_check_ne empty_last_line_check k (fun hh => hke hh.symm)]
      have hbase : ctxCount L k = ctxCount st.ctx k := by
        simp [L]
      rw [hbase]
      simp [hke]
  have hcf : ctxCount ctxf k =
      ctxCount st.ctx k +
        (if k = "EmptyLastRowCheck" ∧ pyEndsWith st.last_line_with_new_line "\n" = false
         then 1 else 0) := by
    rw [hcount k hk, hctx2]
  cases hs : ctxf.summary with
  | some s =>
      have hsum : summaryCount s k = ctxCount ctxf k := by
        unfold ctxCount
        rw [hs]
        rfl
      simp [hs, Except.map, hsum, hcf]
  | none =>
      have hz : ctxCount ctxf k = 0 := by
        unfold ctxCount
        rw [hs]
        rfl
      rw [hz] at hcf
      simp only [hs, Option.isSome_none, Bool.and_false, Bool.false_eq_true, if_false,
        Except.map, summaryCount, alistFind?]
      exact congrArg Except.ok hcf

end TSValid

namespace TSValid

/-- The `summary` option changes only the final `return`: with the option
off, `validate`'s finalisation returns the empty dictionary, while the
context (and everything printed) is untouched. -/
theorem finalize_flag (self : TSValidChecker) (st : LoopState) :
    finalize self false st =
      (finalize self true st).map (fun p => (([] : Summary), p.2)) := by
  simp only [finalize]
  cases st.ctx.line_number with
  | none => rfl
  | some cur =>
      simp only []
      cases run_check self empty_last_line_check st.last_line_with_new_line
          (⟨st.ctx.filename, some cur, some 0, st.ctx.first_row, st.ctx.tab_count,
            some cur, st.ctx.column_values_empty, st.ctx.summary⟩ : Ctx) with
      | error e => rfl
      | ok c2 =>
          simp only []
          cases c2.column_values_empty with
          | none => rfl
          | some d =>
              simp only []
              cases empty_column_scan self c2 d with
              | error e => rfl
              | ok c3 =>
                  simp only []
                  cases hs : c3.summary with
                  | some s => simp [Except.map, hs]
                  | none => simp [Except.map, hs]

/-- With the `summary` option on, the dictionary `validate`'s finalisation
returns is exactly the final context's summary (empty when the summary key
was never created). -/
theorem finalize_true_summary (self : TSValidChecker) (st : LoopState) :
    (finalize self true st).map (fun p => p.1) =
      (finalize self true st).map (fun p => p.2.summary.getD []) := by
  simp only [finalize]
  cases st.ctx.line_number with
  | none => rfl
  | some cur =>
      simp only []
      cases run_check self empty_last_line_check st.last_line_with_new_line
          (⟨st.ctx.filename, some cur, some 0, st.ctx.first_row, st.ctx.tab_count,
            some cur, st.ctx.column_values_empty, st.ctx.summary⟩ : Ctx) with
      | error e => rfl
      | ok c2 =>
          simp only []
          cases c2.column_values_empty with
          | none => rfl
          | some d =>
              simp only []
              cases empty_column_scan self c2 d with
              | error e => rfl
              | ok c3 =>
                  simp only []
                  cases hs : c3.summary with
                  | some s => simp [Except.map, hs]
                  | none => simp [Except.map, hs]

end TSValid

namespace TSValid

/-- The summary count a default-configuration validation run reports under
key `k`: the scan-loop accumulation plus the post-loop empty-last-row
report. -/
theorem validateFull_nf_count (lines : List String) (h : lines ≠ []) (k : String)
    (hk : k ≠ "EmptyColumnCheck") :
    (validateFull checkerNF true none lines false).map (fun p => summaryCount p.1 k) =
      Except.ok
        (ctxCount
          (lines.foldl stepNF
            (⟨⟨checkerNF.file_path, none, none, none, none, none, none, none⟩,
              0, "", ""⟩ : LoopState)).ctx k +
          (if k = "EmptyLastRowCheck" ∧ pyEndsWith (lines.getLastD "") "\n" = false
           then 1 else 0)) := by
  simp only [validateFull, scanLoop_nf, Bool.false_eq_true, if_false]
  obtain ⟨cur, h1⟩ := Option.isSome_iff_exists.mp
    (foldl_stepNF_line_number_isSome lines h
      (⟨⟨checkerNF.file_path, none, none, none, none, none, none, none⟩, 0, "", ""⟩ : LoopState))
  obtain ⟨d, h2⟩ := Option.isSome_iff_exists.mp
    (foldl_stepNF_cve_isSome lines h
      (⟨⟨checkerNF.file_path, none, none, none, none, none, none, none⟩, 0, "", ""⟩ : LoopState))
  rw [finalize_nf_count _ cur d k h1 h2 hk, foldl_stepNF_last_raw]

end TSValid

namespace TSValid

/-! ### Small helpers for the claim statements -/

theorem validate_map (self : TSValidChecker) (b : Bool) (comment : Option String)
    (lines : List String) (de : Bool) (g : Summary → Nat) :
    (validate self b comment lines de).map g =
      (validateFull self b comment lines de).map (fun p => g p.1) := by
  unfold validate
  cases validateFull self b comment lines de <;> rfl

theorem getLastD_append_singleton (xs : List String) (y d : String) :
    (xs ++ [y]).getLastD d = y := by
  rw [List.getLastD_eq_getLast?, List.getLast?_concat]
  rfl

theorem pyEndsWith_append_newline (s : String) :
    pyEndsWith (s ++ "\n") "\n" = true := by
  have hd : (s ++ "\n").data = s.data ++ ['\n'] := by
    simp [String.data_append]
  simp only [pyEndsWith, hd]
  simp [List.isSuffixOf, List.isPrefixOf]

end TSValid

namespace TSValid

/-- Turning the `summary` option off empties the returned dictionary of an
otherwise identical run (scanning and the final context are unaffected). -/
theorem validateFull_flag (self : TSValidChecker) (comment : Option String)
    (lines : List String) (de : Bool) :
    validateFull self false comment lines de =
      (validateFull self true comment lines de).map (fun p => (([] : Summary), p.2)) := by
  simp only [validateFull]
  cases hsc : (scanLoop self comment
      (⟨⟨self.file_path, none, none, none, none, none, none, none⟩, 0, "", ""⟩ : LoopState)
      lines).2 with
  | none =>
      cases de with
      | false =>
          simp only []
          exact finalize_flag self _
      | true =>
          simp only [isUnicodeEncodeError]
          rfl
  | some e =>
      cases he : isUnicodeEncodeError e with
      | false =>
          simp only [he]
          rfl
      | true =>
          simp only [he]
          exact finalize_flag self _

/-- With the `summary` option on, the dictionary returned equals the final
context's summary (empty when no check ever fired). -/
theorem validateFull_true_summary (self : TSValidChecker) (comment : Option String)
    (lines : List String) (de : Bool) :
    (validateFull self true comment lines de).map (fun p => p.1) =
      (validateFull self true comment lines de).map (fun p => p.2.summary.getD []) := by
  simp only [validateFull]
  cases hsc : (scanLoop self comment
      (⟨⟨self.file_path, none, none, none, none, none, none, none⟩, 0, "", ""⟩ : LoopState)
      lines).2 with
  | none =>
      cases de with
      | false =>
          simp only []
          exact finalize_true_summary self _
      | true =>
          simp only [isUnicodeEncodeError]
          rfl
  | some e =>
      cases he : isUnicodeEncodeError e with
      | false =>
          simp only [he]
          rfl
      | true =>
          simp only [he]
          exact finalize_true_summary self _

end TSValid

namespace TSValid

/-! ### The claims -/

/-- C1 (code bug): the claim says a check is skipped iff an exclusion token
equals its code exactly or fully matches it as an anchored regex, and that
an excluded check's findings never reach the summary.  `_run_check` only
tests exact list membership (`check.error_code not in self.exceptions`), so
the regex token `"E."` — which fully matches `"E2"` — does not skip the E2
check (first conjunct: a leading-space cell still yields an E2 finding),
and the empty-column report bypasses `_run_check` entirely, so even the
exact token `"E8"` leaves E8 findings in the summary (second conjunct).
Exact-token skipping of a check that is routed through `_run_check` does
work (third conjunct). -/
theorem c1_exclusion_exact_membership_only :
    (validate ⟨"input.tsv", ["E."], false⟩ true none [" a\n"] false).map
        (fun s => summaryCount s "LeadingWhitespaceCheck") = Except.ok 1 ∧
    (validate ⟨"input.tsv", ["E8"], false⟩ true none ["a\t\n", "b\t\n"] false).map
        (fun s => summaryCount s "EmptyColumnCheck") = Except.ok 1 ∧
    validate ⟨"input.tsv", ["E2"], false⟩ true none [" a\n"] false = Except.ok [] :=
  ⟨rfl, rfl, rfl⟩

/-- C2 (code bug): with fail-hard on, `validate` terminates the process
(`sys.exit(1)`, modelled as `PyExc.systemExit 1`) on the clean file
`"a\tb\n"` even though no check fails there — the line-level `check`
method returns `None`, which `_consider_failing` treats as a failure.  The
same file under the default configuration confirms that no check fired
(empty summary). -/
theorem c2_fail_hard_exits_without_failure :
    validate ⟨"input.tsv", [], true⟩ true none ["a\tb\n"] false =
      Except.error (PyExc.systemExit 1) ∧
    validate ⟨"input.tsv", [], false⟩ true none ["a\tb\n"] false = Except.ok [] :=
  ⟨rfl, rfl⟩

/-- C3 (code bug): a decode failure while reading raises
`UnicodeDecodeError`, but the `try`/`except` of `validate` catches only
`UnicodeEncodeError` (not a superclass of the decode error), so the
exception propagates to the caller instead of being recovered into an E0
summary entry. -/
theorem c3_decode_error_uncaught :
    validate checkerNF true none ["a\tb\n"] true =
      Except.error PyExc.unicodeDecodeError ∧
    isUnicodeEncodeError PyExc.unicodeDecodeError = false :=
  ⟨rfl, rfl⟩

/-- C4 (counterexample): on the file `" a\n"` — which is not clean, firing
E2 once — `validate` returns the empty mapping when the `summary` option is
off, and the accumulated summary when it is on: the option changes the
returned value, contradicting the claim that it only controls printing. -/
theorem c4_counterexample :
    validate checkerNF false none [" a\n"] false = Except.ok [] ∧
    validate checkerNF true none [" a\n"] false =
      Except.ok [("LeadingWhitespaceCheck", ⟨1, "E2"⟩)] :=
  ⟨rfl, rfl⟩

/-- C4 (amended): `validate` returns the accumulated summary — the final
context's summary dictionary, keyed by check class name — only when the
`summary` option is enabled; with the option disabled it returns the empty
mapping regardless of findings.  So the flag controls the returned value as
well as the printing. -/
theorem c4_summary_flag_controls_return (self : TSValidChecker)
    (comment : Option String) (lines : List String) (de : Bool) :
    validate self false comment lines de =
      (validate self true comment lines de).map (fun _ => ([] : Summary)) ∧
    validate self true comment lines de =
      (validateFull self true comment lines de).map (fun p => p.2.summary.getD []) := by
  constructor
  · unfold validate
    rw [validateFull_flag]
    cases validateFull self true comment lines de <;> rfl
  · unfold validate
    exact validateFull_true_summary self comment lines de

/-- C5 (code bug): the checks module's W1 predicate `bad_encoding_in_char`
does fire on the non-ASCII cell `"é"`, but `TSValidChecker.validate` has no
non-ASCII check in its registry and never invokes that predicate: scanning
the file `"é\n"` returns an empty summary, with no W1 finding. -/
theorem c5_w1_never_runs :
    bad_encoding_in_char "é" = true ∧
    validate checkerNF true none ["é\n"] false = Except.ok [] :=
  ⟨rfl, rfl⟩

/-- C6 (counterexample): a vertical-tab character (U+000B) is whitespace,
and the file whose single line is `"\x0ba\n"` has a first cell starting
with it; yet the scan reports no E2 (the summary is empty), because
`LeadingWhitespaceCheck` tests `cell.startswith(" ")` — a space, not
arbitrary whitespace.  This refutes "E2 fires iff the cell starts with
whitespace". -/
theorem c6_counterexample :
    pyIsSpace (Char.ofNat 11) = true ∧
    pyStartsWith (String.mk [Char.ofNat 11, 'a']) (String.mk [Char.ofNat 11]) = true ∧
    validate checkerNF true none [String.mk [Char.ofNat 11, 'a', '\n']] false =
      Except.ok [] :=
  ⟨rfl, rfl, rfl⟩

/-- C6 (amended): for every cell of every checked line, E2 fires iff the
cell starts with a space character `" "`, and E3 fires iff the cell ends
with a space character (so an all-space cell fires both): over a whole
default-configuration run, the E2 count is the number of cells (across the
tab-split bare lines) starting with a space, and the E3 count the number of
cells ending with a space. -/
theorem c6_space_only_whitespace (lines : List String) (h : lines ≠ []) :
    (validate checkerNF true none lines false).map
        (fun s => summaryCount s "LeadingWhitespaceCheck") =
      Except.ok (lines.map e2CellCount).sum ∧
    (validate checkerNF true none lines false).map
        (fun s => summaryCount s "TrailingWhitespaceCheck") =
      Except.ok (lines.map e3CellCount).sum := by
  constructor
  · rw [validate_map, validateFull_nf_count lines h "LeadingWhitespaceCheck" (by decide),
      foldl_stepNF_count_E2]
    simp [ctxCount, summaryCount, alistFind?]
  · rw [validate_map, validateFull_nf_count lines h "TrailingWhitespaceCheck" (by decide),
      foldl_stepNF_count_E3]
    simp [ctxCount, summaryCount, alistFind?]

/-- Witness for C6 (amended) at the file `"a \t b \n"`: its bare line
splits into the cells `"a "` and `" b "`, one of which starts with a space
and both of which end with one. -/
theorem c6_space_only_whitespace_witness :
    (["a \t b \n"] : List String) ≠ [] ∧
    (validate checkerNF true none ["a \t b \n"] false).map
        (fun s => summaryCount s "LeadingWhitespaceCheck") = Except.ok 1 ∧
    (validate checkerNF true none ["a \t b \n"] false).map
        (fun s => summaryCount s "TrailingWhitespaceCheck") = Except.ok 2 := by
  have hc := c6_space_only_whitespace ["a \t b \n"] (by decide)
  exact ⟨by decide, by rw [hc.1]; rfl, by rw [hc.2]; rfl⟩

/-- C7 (confirmed): the empty-line check is a one-line lookback — E5 is
evaluated for every line except the last, and never for the last line of
the file: over a default-configuration run the E5 count equals the number
of blank lines among all lines but the last.  In particular a file of N
lines with exactly one interior blank line yields exactly one E5 finding. -/
theorem c7_empty_line_lookback (lines : List String) (h : lines ≠ []) :
    (validate checkerNF true none lines false).map
        (fun s => summaryCount s "EmptyLinesCheck") =
      Except.ok (lines.dropLast.countP isBlankLine) := by
  rw [validate_map, validateFull_nf_count lines h "EmptyLinesCheck" (by decide),
    foldl_stepNF_count_E5]
  simp [ctxCount, summaryCount, alistFind?, e5Events_from_start]

/-- Witness for C7 at a three-line file whose only blank line is interior:
exactly one E5 finding. -/
theorem c7_empty_line_lookback_witness :
    (["a\n", "\n", "b\n"] : List String) ≠ [] ∧
    (validate checkerNF true none ["a\n", "\n", "b\n"] false).map
        (fun s => summaryCount s "EmptyLinesCheck") = Except.ok 1 :=
  ⟨by decide, by rw [c7_empty_line_lookback ["a\n", "\n", "b\n"] (by decide)]; rfl⟩

/-- C8 (confirmed): E9 fires iff the final raw line lacks its trailing line
terminator (the newline character, the only line ending this validator
treats as legal), and appending a newline to such a file — which turns its
last raw line `l` into `l ++ "\n"` — makes E9 disappear on rerun. -/
theorem c8_empty_last_row (lines : List String) (h : lines ≠ []) :
    (validate checkerNF true none lines false).map
        (fun s => summaryCount s "EmptyLastRowCheck") =
      Except.ok (if pyEndsWith (lines.getLastD "") "\n" then 0 else 1) ∧
    (validate checkerNF true none (lines.dropLast ++ [lines.getLastD "" ++ "\n"]) false).map
        (fun s => summaryCount s "EmptyLastRowCheck") = Except.ok 0 := by
  have main : ∀ ls : List String, ls ≠ [] →
      (validate checkerNF true none ls false).map
          (fun s => summaryCount s "EmptyLastRowCheck") =
        Except.ok (if pyEndsWith (ls.getLastD "") "\n" then 0 else 1) := by
    intro ls hls
    rw [validate_map, validateFull_nf_count ls hls "EmptyLastRowCheck" (by decide),
      foldl_stepNF_count_E9]
    cases hpe : pyEndsWith (ls.getLastD "") "\n" <;>
      simp [hpe, ctxCount, summaryCount, alistFind?]
  refine ⟨main lines h, ?_⟩
  rw [main (lines.dropLast ++ [lines.getLastD "" ++ "\n"]) (by simp)]
  rw [getLastD_append_singleton, pyEndsWith_append_newline]
  rfl

/-- Witness for C8 at the one-line file `"x"` (no terminator): E9 fires
once, and after appending a newline the rerun reports no E9. -/
theorem c8_empty_last_row_witness :
    (["x"] : List String) ≠ [] ∧
    (validate checkerNF true none ["x"] false).map
        (fun s => summaryCount s "EmptyLastRowCheck") = Except.ok 1 ∧
    (validate checkerNF true none ["x\n"] false).map
        (fun s => summaryCount s "EmptyLastRowCheck") = Except.ok 0 := by
  have hc := c8_empty_last_row ["x"] (by decide)
  exact ⟨by decide, by rw [hc.1]; rfl, hc.2⟩

/-- C9 (code bug): on the two-line file `"a\nb\n"` the last-row line number
recorded after the scan is `1`, not the claimed `N = 2`: the empty-line
lookback decrements the current-line key and `validate` never restores it,
so `context[KEY_LAST_LINE] = context[KEY_CURRENT_LINE]` copies the stale
value `N - 1`. -/
theorem c9_last_row_line_off_by_one :
    (validateFull checkerNF true none ["a\n", "b\n"] false).map
        (fun p => p.2.last_line) = Except.ok (some 1) ∧
    (["a\n", "b\n"] : List String).length = 2 :=
  ⟨rfl, rfl⟩

/-- C10 (confirmed): on a file of zero lines the scan loop never sets the
current-line key, and the post-loop finalisation's read
`context[KEY_LAST_LINE] = context[KEY_CURRENT_LINE]` raises a `KeyError`
for `"line_number"` instead of returning the empty summary. -/
theorem c10_empty_file_keyerror :
    validate checkerNF true none [] false =
      Except.error (PyExc.keyError KEY_CURRENT_LINE) :=
  rfl

end TSValid
